import Mathlib

/-!
Verification of the streaming research-assistant repository (BUTDA).

Backend model: shallow embedding of the Python service code given in
`docs/.implementation_design/design/BACKEND_IMPLEMENTATION.md`
(`AgentService.search`, `ResearchService.__init__`,
`ResearchService.process_research`, and the `POST /research` endpoint).

Frontend model: shallow embedding of the React client (`App.tsx`, two
revisions): the SSE event handlers (`handleProgress`, `handleComplete`,
`handleErrorEvent`), `handleSend`, and the markdown link rendering of
`renderMarkdownHtml`.
-/

/-- Lowercasing of a string, character by character.  This embeds Python's
`str.lower` (and reduces inside the kernel, unlike `String.toLower`); the two
agree on the ASCII queries at issue here. -/
def strLower (s : String) : String := String.mk (s.toList.map Char.toLower)

/-- Removal of leading and trailing whitespace.  This embeds JavaScript's
`String.prototype.trim` (and Python's `str.strip`) and reduces inside the
kernel, unlike `String.trim`. -/
def strTrim (s : String) : String :=
  String.mk (((s.toList.dropWhile Char.isWhitespace).reverse.dropWhile Char.isWhitespace).reverse)

namespace Backend

/-- Result dictionary returned by the research agent / `AgentService`.
The Python value is a JSON-like dict; the service only ever reads the keys
`summary`, `results` and `sources` (with `.get` defaults), so the embedding
records exactly those three, each optional (absent key = `none`).  Individual
result/source items are opaque JSON values, modelled as strings. -/
structure AgentDict where
  summary : Option String
  results : Option (List String)
  sources : Option (List String)
deriving DecidableEq

/-- Behaviour of the black-box call `self.research_agent.standard_research(query)`:
it returns a dict, returns a non-dict value, or raises an exception whose
`str(e)` text is `msg`. -/
inductive AgentOutcome where
  | ok (d : AgentDict)
  | nonDict (reprText : String)
  | raises (msg : String)
deriving DecidableEq

/-- Embedding of `AgentService.search` (and `_process_agent_result`): a dict is
passed through; a non-dict is wrapped as `{"summary": str(result), ...}`; an
exception is caught and converted into an ordinary result dict whose summary is
`f"Error processing research: {str(e)}"`. -/
def AgentService.search (outcome : AgentOutcome) : AgentDict :=
  match outcome with
  | .ok d => d
  | .nonDict r => { summary := some r, results := some [], sources := some [] }
  | .raises e =>
      { summary := some ("Error processing research: " ++ e)
        results := some []
        sources := some [] }

/-- Statistics block of a formatted research result. -/
structure Statistics where
  totalResults : Nat
  processingTime : Nat
  searchTime : Nat
  summaryTime : Nat
deriving DecidableEq

/-- Formatted research result as built by `ResearchService._format_results` and
then mutated by `process_research`.  In Python the dict has no `cached` key
until `process_research` assigns it; the embedding carries the field from the
start and `_format_results` initialises it to `false`, which is observably the
same because every code path assigns `cached` before the dict is returned or
serialised. -/
structure FormattedResult where
  query : String
  summary : String
  results : List String
  sources : List String
  statistics : Statistics
  cached : Bool
deriving DecidableEq

/-- Embedding of `ResearchService._format_results`: reads the agent dict with
`.get` defaults; `totalResults` is the length of the `results` list; the timing
fields are filled in later by the caller. -/
def formatResults (searchResults : AgentDict) (query : String) : FormattedResult :=
  { query := query
    summary := searchResults.summary.getD "No summary available"
    results := searchResults.results.getD []
    sources := searchResults.sources.getD []
    statistics :=
      { totalResults := (searchResults.results.getD []).length
        processingTime := 0
        searchTime := 0
        summaryTime := 0 }
    cached := false }

/-- One Redis entry as written by `setex`: the serialized result, its insertion
time and its TTL (seconds). -/
structure CacheEntry where
  value : FormattedResult
  insertedAt : Nat
  ttl : Nat
deriving DecidableEq

/-- Redis store: newest binding first; `lookup` finds the most recent write, so
consing models `setex`'s unconditional overwrite. -/
abbrev RedisStore := List (String × CacheEntry)

/-- Embedding of `redis.get` with TTL semantics: an entry past its TTL is
expired and reads as absent (Redis removes/hides it after `ttl` seconds). -/
def redisGet (store : RedisStore) (now : Nat) (k : String) : Option FormattedResult :=
  match store.lookup k with
  | some e => if now < e.insertedAt + e.ttl then some e.value else none
  | none => none

/-- Embedding of `redis.setex`: unconditional overwrite with a fresh TTL. -/
def redisSetex (store : RedisStore) (now : Nat) (k : String) (ttl : Nat)
    (v : FormattedResult) : RedisStore :=
  (k, { value := v, insertedAt := now, ttl := ttl }) :: store

/-- Embedding of `ResearchService.__init__`: `redis_client` is non-None exactly
when `REDIS_URL` is set and both `redis.from_url` and `ping()` succeed; any
exception during construction is swallowed and leaves the client as None. -/
def redisClientPresent (redisUrlSet : Bool) (connectAndPingOk : Bool) : Bool :=
  redisUrlSet && connectAndPingOk

/-- Cache key as computed by `process_research`:
`cache_key = f"research:{query.lower()}"`. -/
def cacheKeyOf (query : String) : String := "research:" ++ strLower query

/-- Outcome of one `process_research` call: the returned result, whether the
agent was invoked (i.e. whether `AgentService().search` ran), and the Redis
store after the call. -/
structure ProcessOutcome where
  result : FormattedResult
  agentCalled : Bool
  store : RedisStore
deriving DecidableEq

/-- Embedding of `ResearchService.process_research`.  `clientPresent` is the
`self.redis_client is not None` test; `now` is the current time (seconds) used
for TTL bookkeeping; `agent` is the behaviour of the black-box agent call;
`searchTime`/`processingTime` stand for the measured wall-clock durations.
On a hit the cached value is returned with `cached = True` and a fresh
`processingTime`; on a miss the agent runs, the result is formatted, stamped
`cached = False`, written back with `setex(cache_key, CACHE_TTL, ...)`, and
returned. -/
def process_research (clientPresent : Bool) (store : RedisStore) (now : Nat)
    (cacheTTL : Nat) (agent : AgentOutcome) (query : String)
    (searchTime processingTime : Nat) : ProcessOutcome :=
  let key := cacheKeyOf query
  let cachedHit : Option FormattedResult :=
    if clientPresent then redisGet store now key else none
  match cachedHit with
  | some r =>
      { result :=
          { r with
            cached := true
            statistics := { r.statistics with processingTime := processingTime } }
        agentCalled := false
        store := store }
  | none =>
      let searchResults := AgentService.search agent
      let formatted0 := formatResults searchResults query
      let formatted :=
        { formatted0 with
          statistics :=
            { formatted0.statistics with
              searchTime := searchTime
              processingTime := processingTime }
          cached := false }
      let store' :=
        if clientPresent then redisSetex store now key cacheTTL formatted else store
      { result := formatted, agentCalled := true, store := store' }

/-- Error object of a failed `ResearchResponse`: the endpoint returns
`{"code": "INTERNAL_ERROR", "message": ..., "details": {"error": str(e)}}`. -/
structure ErrorInfo where
  code : String
  message : String
  detailsError : String
deriving DecidableEq

/-- Wire response of the `POST /research` endpoint. -/
structure ResearchResponse where
  success : Bool
  data : Option FormattedResult
  error : Option ErrorInfo
deriving DecidableEq

/-- Embedding of the `research` endpoint's try/except around
`ResearchService().process_research(...)` (validation happens earlier and can
only reject the request).  A raised exception `e` becomes a failure response
whose `details` carry the raw `str(e)`. -/
def researchEndpoint (serviceOutcome : Except String FormattedResult) : ResearchResponse :=
  match serviceOutcome with
  | .ok r => { success := true, data := some r, error := none }
  | .error e =>
      { success := false
        data := none
        error := some
          { code := "INTERNAL_ERROR"
            message := "An error occurred while processing your request"
            detailsError := e } }

end Backend


namespace Client

/-- Progress payload as it stands after `handleProgress`'s field coercions:
`stage` is `raw.stage` when it is a string and `""` otherwise; the other three
fields are kept only when they are truthy strings (otherwise `undefined`,
i.e. `none`). -/
structure ProgressPayload where
  stage : String
  message : Option String
  details : Option String
  article_url : Option String
deriving DecidableEq

/-- Value read out of a plain JS object by bracket lookup: either a string
property value, or a member inherited from `Object.prototype` (a function — or
`Object.prototype` itself for `__proto__` — identified by its property name;
in every case a truthy, non-string value).  Lean equality on this type models
JS `===` on the looked-up values: equal strings are `===`, the same inherited
member name yields the same object, and a string is never `===` to an
inherited member. -/
inductive JsVal where
  | str (s : String)
  | inherited (name : String)
deriving DecidableEq

/-- Property names that a plain object literal inherits from
`Object.prototype`: a bracket lookup with one of these keys walks the prototype
chain and finds the inherited member even though the literal declares no such
own property. -/
def protoMembers : List String :=
  ["constructor", "hasOwnProperty", "isPrototypeOf", "propertyIsEnumerable",
   "toLocaleString", "toString", "valueOf", "__proto__",
   "__defineGetter__", "__defineSetter__", "__lookupGetter__", "__lookupSetter__"]

/-- Bracket lookup `o[key]` on a plain object literal whose own properties are
the string-valued `own` map: an own property wins; failing that, the prototype
chain supplies the inherited `Object.prototype` member; otherwise the result is
`undefined` (`none`). -/
def recordLookup (own : String → Option String) (key : String) : Option JsVal :=
  match own key with
  | some v => some (.str v)
  | none => if key ∈ protoMembers then some (.inherited key) else none

/-- Own properties of the first revision's `stageCopy` object literal. -/
def stageCopyOwn1 (s : String) : Option String :=
  if s = "starting" then some "Starting"
  else if s = "loading" then some "Loading"
  else if s = "searching" then some "Searching"
  else if s = "reading" then some "Reading"
  else if s = "thinking" then some "Thinking"
  else if s = "writing" then some "Organizing"
  else none

/-- Embedding of the first revision's `stageCopy[stage]` lookup, prototype
chain included. -/
def stageCopy1 (s : String) : Option JsVal := recordLookup stageCopyOwn1 s

/-- Display label of the first revision: `stageCopy[stage] || "Working"`.
Every own label and every inherited member is truthy, so only an absent
property (`undefined`) falls through to `"Working"`. -/
def label1 (s : String) : JsVal := (stageCopy1 s).getD (JsVal.str "Working")

/-- Own properties of the second revision's `stageCopy` object literal. -/
def stageCopyOwn2 (s : String) : Option String :=
  if s = "starting" then some "🔍 Preparing"
  else if s = "loading" then some "⏳ Loading"
  else if s = "searching" then some "🔎 Searching"
  else if s = "reading" then some "📖 Reading"
  else if s = "thinking" then some "🧠 Analyzing"
  else if s = "writing" then some "✍️ Summarizing"
  else none

/-- Embedding of the second revision's `stageCopy[stage]` lookup, prototype
chain included. -/
def stageCopy2 (s : String) : Option JsVal := recordLookup stageCopyOwn2 s

/-- Display label of the second revision: `stageCopy[stage] || "Working"`. -/
def label2 (s : String) : JsVal := (stageCopy2 s).getD (JsVal.str "Working")

/-- One entry of the `cotMessages` list built by `handleProgress`.  The
`stage` field holds the display label, which is a string for known stages and
the fallback but an inherited `Object.prototype` member for prototype keys. -/
structure CotEntry where
  stage : JsVal
  message : Option String
  details : Option String
  article_url : Option String
  domain : Option String
deriving DecidableEq

/-- The comparison key of the consecutive-duplicate check in `handleProgress`:
`last.stage === nextItem.stage && last.article_url === nextItem.article_url &&
last.details === nextItem.details`. -/
def tripleOf (e : CotEntry) : JsVal × Option String × Option String :=
  (e.stage, e.details, e.article_url)

/-- Embedding of the `setCotMessages` updater in `handleProgress` (identical in
both revisions): if the list's last entry agrees with the incoming entry on
stage, article_url and details, the list is returned unchanged; otherwise the
entry is appended. -/
def pushCot (prev : List CotEntry) (n : CotEntry) : List CotEntry :=
  match prev.getLast? with
  | some last => if tripleOf last = tripleOf n then prev else prev ++ [n]
  | none => prev ++ [n]

/-- Construction of `nextItem` in `handleProgress`: the display label, the
payload fields, and the domain extracted from the article URL.  `dm` stands for
`getDomain` (the browser's `new URL(u).hostname` with the `www.` prefix
stripped, `undefined` when parsing fails), passed as a parameter because URL
parsing is a browser primitive. -/
def mkEntry (lb : String → JsVal) (dm : String → Option String)
    (p : ProgressPayload) : CotEntry :=
  { stage := lb p.stage
    message := p.message
    details := p.details
    article_url := p.article_url
    domain := match p.article_url with | some u => dm u | none => none }

/-- The `cotMessages` list obtained by folding `handleProgress`'s updater over a
sequence of incoming progress payloads, starting from the empty list set by
`handleSend`. -/
def buildCot (lb : String → JsVal) (dm : String → Option String)
    (ps : List ProgressPayload) : List CotEntry :=
  ps.foldl (fun l p => pushCot l (mkEntry lb dm p)) []

/-- The `cotActive` record (`{url, domain, title}`). -/
structure ActiveInfo where
  url : String
  domain : Option String
  title : Option String
deriving DecidableEq

/-- The chain-of-thought part of the component state: `cotMessages`,
`cotCurrent` (label and message of the current stage) and `cotActive`. -/
structure CotState where
  cotMessages : List CotEntry
  cotCurrent : Option (JsVal × Option String)
  cotActive : Option ActiveInfo
deriving DecidableEq

/-- Embedding of `handleProgress` (first revision, with the label map as a
parameter): `none` is an event whose `JSON.parse` threw — the catch block
ignores it and the state is unchanged; otherwise the current stage is updated,
the entry is pushed with deduplication, and `cotActive` is set when an article
URL arrives in the `Reading` stage. -/
def handleProgressCot (lb : String → JsVal) (dm : String → Option String)
    (st : CotState) (d : Option ProgressPayload) : CotState :=
  match d with
  | none => st
  | some p =>
      let label := lb p.stage
      let st1 :=
        { st with
          cotCurrent := some (label, p.message)
          cotMessages := pushCot st.cotMessages (mkEntry lb dm p) }
      match p.article_url with
      | some u =>
          if label = JsVal.str "Reading" then
            { st1 with cotActive := some { url := u, domain := dm u, title := p.details } }
          else st1
      | none => st1

/-- Chat message as far as the event handlers observe it (the `id` and
`timestamp` fields are wall-clock values with no bearing on the claims and are
omitted). -/
structure ChatMessage where
  role : String
  title : Option String
  text : String
deriving DecidableEq

/-- Embedding of `finalize`: drop the loading placeholder and append the final
message. -/
def finalize (msgs : List ChatMessage) (m : ChatMessage) : List ChatMessage :=
  (msgs.filter (fun x => x.role != "loading")) ++ [m]

/-- Parsed payload of a `complete` event, as read by `handleComplete`:
`resultContent` is `data?.data?.result?.content` and `content` is
`data?.data?.content`. -/
structure CompleteData where
  resultContent : Option String
  content : Option String
deriving DecidableEq

/-- JavaScript's `a || b` on an optional string `a`: an absent or empty string
is falsy and falls through to `b`. -/
def jsOrS (a : Option String) (b : String) : String :=
  match a with
  | some s => if s = "" then b else s
  | none => b

/-- Summary extraction in `handleComplete`:
`result?.result?.content || result?.content || "No summary available."`. -/
def summaryOf (d : CompleteData) : String :=
  jsOrS d.resultContent (jsOrS d.content "No summary available.")

/-- Parsed payload of an `error` event, as read by `handleErrorEvent`. -/
structure ErrorData where
  error : Option String
  message : Option String
  code : Option String
deriving DecidableEq

/-- Error text in `handleErrorEvent` (first revision):
`data?.error || data?.message || "Stream error"`. -/
def errMsgOf (d : ErrorData) : String := jsOrS d.error (jsOrS d.message "Stream error")

/-- Wire events dispatched to the client's listeners.  A `none` payload is an
event whose `ev.data` failed `JSON.parse` inside the handler's try block. -/
inductive SSEEvent where
  | progress (d : Option ProgressPayload)
  | complete (d : Option CompleteData)
  | errorEv (d : Option ErrorData)
deriving DecidableEq

/-- Component state observed by `handleSend` and the three event handlers.
`es` is `eventSourceRef.current` (a connection identifier, `none` for null);
`openConns` tracks every EventSource constructed and not yet closed, so that
close-before-open behaviour is observable. -/
structure AppState where
  messages : List ChatMessage
  cot : CotState
  isStreaming : Bool
  isSending : Bool
  sendingRef : Bool
  userInput : String
  es : Option Nat
  openConns : List Nat
deriving DecidableEq

/-- Embedding of the guarded close:
`if (eventSourceRef.current) { eventSourceRef.current.close(); eventSourceRef.current = null; }`. -/
def closeES (st : AppState) : AppState :=
  match st.es with
  | some i => { st with es := none, openConns := st.openConns.erase i }
  | none => st

/-- The state resets common to all terminal handlers: `setIsStreaming(false)`,
`setIsSending(false)`, `isSendingRef.current = false`, `setCotCurrent(null)`,
`setCotActive(null)`. -/
def terminalReset (st : AppState) : AppState :=
  { st with
    isStreaming := false
    isSending := false
    sendingRef := false
    cot := { st.cot with cotCurrent := none, cotActive := none } }

/-- Embedding of `handleComplete`: on a parseable payload the summary becomes
the final assistant message; on a parse failure the catch block produces the
`Failed to process final result` error message.  Both branches close the
EventSource. -/
def handleComplete (st : AppState) (d : Option CompleteData) : AppState :=
  match d with
  | some cd =>
      closeES { terminalReset st with
        messages := finalize st.messages
          { role := "assistant", title := some "Research Summary", text := summaryOf cd } }
  | none =>
      closeES { terminalReset st with
        messages := finalize st.messages
          { role := "error", title := some "Error", text := "Failed to process final result" } }

/-- Embedding of `handleErrorEvent`: on a parseable payload the error message is
finalised and the EventSource closed; on a parse failure the catch block
finalises a generic `Stream error` message but — unlike every other terminal
path — does not close the EventSource (the source's catch branch has no
`close()` call). -/
def handleErrorEvent (st : AppState) (d : Option ErrorData) : AppState :=
  match d with
  | some ed =>
      closeES { terminalReset st with
        messages := finalize st.messages
          { role := "error", title := some "Error", text := errMsgOf ed } }
  | none =>
      { terminalReset st with
        messages := finalize st.messages
          { role := "error", title := some "Error", text := "Stream error" } }

/-- Delivery of one wire event: the browser dispatches to the registered
listeners only while the EventSource is open (`close()` stops all delivery), so
a closed state absorbs every event; otherwise the matching handler runs. -/
def step (dm : String → Option String) (st : AppState) (ev : SSEEvent) : AppState :=
  if st.es.isNone then st
  else
    match ev with
    | .progress d => { st with cot := handleProgressCot label1 dm st.cot d }
    | .complete d => handleComplete st d
    | .errorEv d => handleErrorEvent st d

/-- The production configuration-error message text. -/
def configErrText : String := "Thiếu biến VITE_API_URL trong môi trường production."

/-- Embedding of `handleSend`: empty (post-trim) input returns immediately; a
set `isSendingRef` returns immediately (no message appended, no connection
touched); otherwise the flag is taken, the user and loading messages are
appended, and — unless `REQUIRE_API` aborts with a configuration error — the
chain-of-thought state is reset, any existing EventSource is closed, and a new
one (`nid`) is opened. -/
def handleSend (requireApi : Bool) (st : AppState) (nid : Nat) : AppState :=
  let text := strTrim st.userInput
  if text = "" then st
  else if st.sendingRef then st
  else
    let st1 :=
      { st with
        sendingRef := true
        isSending := true
        messages := st.messages ++
          ([{ role := "user", title := none, text := text },
            { role := "loading", title := none, text := "" }] : List ChatMessage)
        userInput := "" }
    if requireApi then
      { st1 with
        messages := finalize st1.messages
          { role := "error", title := some "Configuration Error", text := configErrText }
        isSending := false
        sendingRef := false }
    else
      let st2 :=
        { st1 with
          cot := { cotMessages := [], cotCurrent := none, cotActive := st1.cot.cotActive }
          isStreaming := true }
      let st3 := closeES st2
      { st3 with es := some nid, openConns := st3.openConns ++ [nid] }

/-- Consistency between the EventSource reference and the set of open
connections: the reference points at the unique open connection, or nothing is
open. -/
def connInv (st : AppState) : Bool :=
  match st.es with
  | some i => st.openConns == [i]
  | none => st.openConns == []

end Client

namespace Client

/-- Boolean list-prefix test, structurally recursive so that it reduces in the
kernel. -/
def leadsWith : List Char → List Char → Bool
  | [], _ => true
  | _ :: _, [] => false
  | p :: ps, c :: cs => p == c && leadsWith ps cs

/-- Embedding of JavaScript's `String.prototype.startsWith`:
`startsWithS s p` is `s.startsWith(p)`. -/
def startsWithS (s p : String) : Bool := leadsWith p.toList s.toList

/-- Embedding of the first revision's URL guard (lines 90-93):
`const safeUrl = url.startsWith("http") ? url : "#";`. -/
def safeUrl1 (url : String) : String := if startsWithS url "http" then url else "#"

/-- Whitespace-freedom of a captured URL (the `[^\s)]+` character class in the
second revision's link regex; the char class also excludes `)` which the
scanner below guarantees by construction). -/
def isSpaceFree (u : String) : Bool := !(u.toList.any Char.isWhitespace)

/-- Acceptance condition of the second revision's link regex (lines 731-734):
`\[([^\]]+)\]\((https?:\/\/[^\s\)]+)\)` matches exactly when the parenthesised
text starts with `http://` or `https://`, continues with at least one more
character, and contains no whitespace. -/
def urlOk2 (u : String) : Bool :=
  ((startsWithS u "http://" && decide (7 < u.toList.length)) ||
    (startsWithS u "https://" && decide (8 < u.toList.length))) && isSpaceFree u

/-- Output piece of the link-replacement pass: untouched text or an emitted
anchor tag.  Keeping the anchors structured lets the theorems quantify over
every anchor the pass emits. -/
inductive Seg where
  | text (s : String)
  | anchor (href : String) (label : String)
deriving DecidableEq

/-- Split a character list at the first occurrence of `c`: the characters
before it (none of which is `c`) and the characters after it; `none` when `c`
does not occur.  This is how the regex classes `[^\]]+` and `[^)]+` delimit
their captures. -/
def splitAtChar (c : Char) : List Char → Option (List Char × List Char)
  | [] => none
  | x :: xs =>
      if x = c then some ([], xs)
      else
        match splitAtChar c xs with
        | some (b, a) => some (x :: b, a)
        | none => none

/-- Attempt to match `([^\]]+)\]\(([^)]+)\)` immediately after an opening `[`:
a non-empty label up to the first `]`, an immediate `(`, and a non-empty URL up
to the first `)`.  Returns the label, the URL and the remaining input. -/
def tryLink (cs : List Char) : Option (String × String × List Char) :=
  match splitAtChar ']' cs with
  | some (label, rest1) =>
      if label.isEmpty then none
      else
        match rest1 with
        | '(' :: rest2 =>
            match splitAtChar ')' rest2 with
            | some (url, rest3) =>
                if url.isEmpty then none
                else some (String.mk label, String.mk url, rest3)
            | none => none
        | _ => none
  | none => none

/-- Left-to-right scan of `text.replace(/\[([^\]]+)\]\(([^)]+)\)/g, ...)`: at
each `[` the link pattern is tried; on a match accepted by `check` the anchor
replacement is emitted and scanning resumes after the match, otherwise the
character is copied and scanning resumes one character later — exactly the
global-replace semantics of the two revisions' link passes.  `check` yields the
emitted href for an accepted URL (`none` rejects the match, as the second
revision's stricter regex does for non-http URLs).  The fuel argument exceeds
the input length, so the exhaustion branch (which emits no anchor) is never
reached. -/
def linkScan (check : String → Option String) : Nat → List Char → List Seg
  | 0, cs => [Seg.text (String.mk cs)]
  | _ + 1, [] => []
  | fuel + 1, c :: rest =>
      if c = '[' then
        match tryLink rest with
        | some (label, url, rest3) =>
            match check url with
            | some href => Seg.anchor href label :: linkScan check fuel rest3
            | none => Seg.text (String.mk [c]) :: linkScan check fuel rest
        | none => Seg.text (String.mk [c]) :: linkScan check fuel rest
      else Seg.text (String.mk [c]) :: linkScan check fuel rest

/-- URL policy of the first revision: every matched link becomes an anchor,
with the non-http targets replaced by `"#"`. -/
def check1 (url : String) : Option String := some (safeUrl1 url)

/-- URL policy of the second revision: only http(s) URLs are matched at all;
a rejected candidate is left as plain text. -/
def check2 (url : String) : Option String := if urlOk2 url then some url else none

/-- Anchor/text decomposition of the first revision's link pass over its input
(the already-HTML-escaped markdown text). -/
def linkSegs1 (s : String) : List Seg := linkScan check1 (s.toList.length + 1) s.toList

/-- Anchor/text decomposition of the second revision's link pass. -/
def linkSegs2 (s : String) : List Seg := linkScan check2 (s.toList.length + 1) s.toList

/-- Rendering of one piece as the first revision's replacement string
`<a href="${safeUrl}" rel="noopener">${label}</a>`. -/
def renderSeg1 : Seg → String
  | .text t => t
  | .anchor h l => "<a href=\"" ++ h ++ "\" rel=\"noopener\">" ++ l ++ "</a>"

/-- Rendering of one piece as the second revision's replacement string
`<a href="${url}" target="_blank" rel="noopener noreferrer">${label}</a>`. -/
def renderSeg2 : Seg → String
  | .text t => t
  | .anchor h l =>
      "<a href=\"" ++ h ++ "\" target=\"_blank\" rel=\"noopener noreferrer\">" ++ l ++ "</a>"

/-- String produced by the first revision's link pass. -/
def linkify1 (s : String) : String := String.join ((linkSegs1 s).map renderSeg1)

/-- String produced by the second revision's link pass. -/
def linkify2 (s : String) : String := String.join ((linkSegs2 s).map renderSeg2)

end Client

namespace Client

/-- Stand-in domain extractor for concrete runs: a browser URL parser that
fails on every input (`getDomain` returning `undefined`). -/
def noDomain : String → Option String := fun _ => none

/-- Concrete mid-stream component state: a request is in flight on connection 0
and no message has been finalised yet. -/
def demoOpenState : AppState :=
  { messages := []
    cot := { cotMessages := [], cotCurrent := none, cotActive := none }
    isStreaming := true
    isSending := true
    sendingRef := true
    userInput := ""
    es := some 0
    openConns := [0] }

/-- The six stage values of the wire protocol. -/
def sixStages : List String :=
  ["starting", "loading", "searching", "reading", "thinking", "writing"]

/-- Concrete idle component state: nothing in flight, user typed a query. -/
def idleState : AppState :=
  { messages := []
    cot := { cotMessages := [], cotCurrent := none, cotActive := none }
    isStreaming := false
    isSending := false
    sendingRef := false
    userInput := " hello "
    es := none
    openConns := [] }

end Client

/-- C1: the claim says a worker/agent exception never reaches the Result Cache.
In the code, `AgentService.search` converts the exception into an ordinary
result dict and `process_research` then `setex`-caches it like a success: after
a request in which the agent raised `boom`, the cache holds the failure payload
and a second identical query returns it with `cached = true`. -/
theorem c1_error_payload_is_cached :
    (Backend.process_research true [] 0 3600 (.raises "boom") "ai" 5 7).result.summary =
      "Error processing research: boom" ∧
    Backend.redisGet (Backend.process_research true [] 0 3600 (.raises "boom") "ai" 5 7).store
      1 (Backend.cacheKeyOf "ai") ≠ none ∧
    (Backend.process_research true
        (Backend.process_research true [] 0 3600 (.raises "boom") "ai" 5 7).store 1 3600
        (.ok { summary := none, results := none, sources := none }) "ai" 0 9).agentCalled = false ∧
    (Backend.process_research true
        (Backend.process_research true [] 0 3600 (.raises "boom") "ai" 5 7).store 1 3600
        (.ok { summary := none, results := none, sources := none }) "ai" 0 9).result.cached = true ∧
    (Backend.process_research true
        (Backend.process_research true [] 0 3600 (.raises "boom") "ai" 5 7).store 1 3600
        (.ok { summary := none, results := none, sources := none }) "ai" 0 9).result.summary =
      "Error processing research: boom" := by decide

/-- C2 counterexample: `" ai"` and `"ai"` differ only in leading whitespace
(their trims are equal), yet their cache-key fingerprints differ, because the
key is built from `query.lower()` without trimming. -/
theorem c2_whitespace_changes_fingerprint :
    strTrim " ai" = strTrim "ai" ∧
    " ai" = " " ++ "ai" ∧
    Backend.cacheKeyOf " ai" ≠ Backend.cacheKeyOf "ai" := by decide

/-- C2 amended: queries that differ only in letter case (equal after
case-folding) produce the same cache-key fingerprint. -/
theorem c2_casefold_fingerprint (q1 q2 : String) (h : strLower q1 = strLower q2) :
    Backend.cacheKeyOf q1 = Backend.cacheKeyOf q2 := by
  simp [Backend.cacheKeyOf, h]

/-- C2 witness: the amended statement at the concrete pair `"Latest AI"`,
`"latest ai"`. -/
theorem c2_casefold_fingerprint_witness :
    Backend.cacheKeyOf "Latest AI" = Backend.cacheKeyOf "latest ai" :=
  c2_casefold_fingerprint "Latest AI" "latest ai" (by decide)

/-- C3: the claim says the raw exception text never reaches the client.  In the
code, the `POST /research` endpoint places `str(e)` into the error details, and
`AgentService.search` places `str(e)` into the summary that is delivered as a
successful result. -/
theorem c3_raw_exception_text_reaches_client :
    (Backend.researchEndpoint (.error "ValueError: secret detail")).error =
      some { code := "INTERNAL_ERROR"
             message := "An error occurred while processing your request"
             detailsError := "ValueError: secret detail" } ∧
    (Backend.AgentService.search (.raises "ValueError: secret detail")).summary =
      some "Error processing research: ValueError: secret detail" ∧
    (Backend.process_research true [] 0 3600 (.raises "ValueError: secret detail")
        "q" 0 0).result.summary =
      "Error processing research: ValueError: secret detail" := by decide

/-- C4: on a non-expired cache hit `process_research` never invokes the agent
and returns the cached result with `cached = true` (refreshing only the
measured processing time); on a miss it invokes the agent and the orchestrating
service itself stamps `cached = false`, whatever the agent returned. -/
theorem c4_cache_hit_bypass (store : Backend.RedisStore) (now ttl : Nat)
    (agent : Backend.AgentOutcome) (q : String) (st pt : Nat) :
    (∀ r, Backend.redisGet store now (Backend.cacheKeyOf q) = some r →
      (Backend.process_research true store now ttl agent q st pt).agentCalled = false ∧
      (Backend.process_research true store now ttl agent q st pt).result =
        { r with
          cached := true
          statistics := { r.statistics with processingTime := pt } }) ∧
    (Backend.redisGet store now (Backend.cacheKeyOf q) = none →
      (Backend.process_research true store now ttl agent q st pt).agentCalled = true ∧
      (Backend.process_research true store now ttl agent q st pt).result.cached = false) := by
  constructor
  · intro r hr
    constructor <;> simp [Backend.process_research, hr]
  · intro hr
    constructor <;> simp [Backend.process_research, hr, Backend.formatResults]

/-- C4 witness: both branches of the hit/miss dichotomy at concrete inputs —
a store holding a fresh entry for `"ai"`, and the empty store. -/
theorem c4_cache_hit_bypass_witness :
    ((Backend.process_research true
        [(Backend.cacheKeyOf "ai",
          { value := { query := "ai", summary := "S", results := [], sources := []
                       statistics := { totalResults := 0, processingTime := 1,
                                       searchTime := 2, summaryTime := 0 }
                       cached := false }
            insertedAt := 0, ttl := 10 })]
        0 3600 (.raises "x") "ai" 1 2).agentCalled = false ∧
      (Backend.process_research true
        [(Backend.cacheKeyOf "ai",
          { value := { query := "ai", summary := "S", results := [], sources := []
                       statistics := { totalResults := 0, processingTime := 1,
                                       searchTime := 2, summaryTime := 0 }
                       cached := false }
            insertedAt := 0, ttl := 10 })]
        0 3600 (.raises "x") "ai" 1 2).result =
        { query := "ai", summary := "S", results := [], sources := []
          statistics := { totalResults := 0, processingTime := 2,
                          searchTime := 2, summaryTime := 0 }
          cached := true }) ∧
    ((Backend.process_research true [] 0 3600 (.raises "x") "ai" 1 2).agentCalled = true ∧
      (Backend.process_research true [] 0 3600 (.raises "x") "ai" 1 2).result.cached = false) :=
  ⟨(c4_cache_hit_bypass
      [(Backend.cacheKeyOf "ai",
        { value := { query := "ai", summary := "S", results := [], sources := []
                     statistics := { totalResults := 0, processingTime := 1,
                                     searchTime := 2, summaryTime := 0 }
                     cached := false }
          insertedAt := 0, ttl := 10 })]
      0 3600 (.raises "x") "ai" 1 2).1
      { query := "ai", summary := "S", results := [], sources := []
        statistics := { totalResults := 0, processingTime := 1,
                        searchTime := 2, summaryTime := 0 }
        cached := false }
      (by decide),
   (c4_cache_hit_bypass [] 0 3600 (.raises "x") "ai" 1 2).2 (by decide)⟩

/-- C5: when the Redis client failed to connect at construction (the client is
None), a request behaves as a cache miss — the agent runs, the returned result
is fresh with `cached = false`, the store is untouched, and no cache-layer
exception can propagate because neither `get` nor `setex` is ever reached. -/
theorem c5_cache_unreachable_graceful (urlSet : Bool) (store : Backend.RedisStore)
    (now ttl : Nat) (agent : Backend.AgentOutcome) (q : String) (st pt : Nat) :
    Backend.redisClientPresent urlSet false = false ∧
    (Backend.process_research false store now ttl agent q st pt).agentCalled = true ∧
    (Backend.process_research false store now ttl agent q st pt).result.cached = false ∧
    (Backend.process_research false store now ttl agent q st pt).store = store ∧
    (Backend.process_research false store now ttl agent q st pt).result =
      { Backend.formatResults (Backend.AgentService.search agent) q with
        statistics :=
          { (Backend.formatResults (Backend.AgentService.search agent) q).statistics with
            searchTime := st
            processingTime := pt }
        cached := false } := by
  refine ⟨by simp [Backend.redisClientPresent], ?_, ?_, ?_, ?_⟩ <;>
    simp [Backend.process_research]

/-- Appending through `pushCot` preserves the absence of consecutive entries
with equal (stage, details, article_url) triples. -/
theorem pushCot_chain (l : List Client.CotEntry) (n : Client.CotEntry)
    (h : List.Chain' (fun a b => Client.tripleOf a ≠ Client.tripleOf b) l) :
    List.Chain' (fun a b => Client.tripleOf a ≠ Client.tripleOf b) (Client.pushCot l n) := by
  unfold Client.pushCot
  cases hl : l.getLast? with
  | none =>
      have hnil : l = [] := by
        cases l with
        | nil => rfl
        | cons a as => simp at hl
      subst hnil
      simp
  | some last =>
      by_cases he : Client.tripleOf last = Client.tripleOf n
      · simpa [he] using h
      · simp only [he, if_false]
        rw [List.chain'_append]
        refine ⟨h, List.chain'_singleton _, ?_⟩
        intro x hx y hy
        simp only [List.head?_cons, Option.mem_def, Option.some.injEq] at hy
        rw [hl] at hx
        simp only [Option.mem_def, Option.some.injEq] at hx
        subst hx
        subst hy
        exact he

/-- Folding `pushCot` from a list without consecutive equal triples never
creates one. -/
theorem foldl_pushCot_chain (lb : String → Client.JsVal) (dm : String → Option String)
    (ps : List Client.ProgressPayload) (acc : List Client.CotEntry)
    (h : List.Chain' (fun a b => Client.tripleOf a ≠ Client.tripleOf b) acc) :
    List.Chain' (fun a b => Client.tripleOf a ≠ Client.tripleOf b)
      (ps.foldl (fun l p => Client.pushCot l (Client.mkEntry lb dm p)) acc) := by
  induction ps generalizing acc with
  | nil => exact h
  | cons p ps ih => exact ih _ (pushCot_chain _ _ h)

/-- C6: the consumer's progress list never contains two consecutive entries
with equal (stage, details, article_url) triples, because the `setCotMessages`
updater leaves the list unchanged when the incoming entry's triple equals the
last appended entry's triple and appends it at the end otherwise (preserving
arrival order). -/
theorem c6_consecutive_dedup (lb : String → Client.JsVal) (dm : String → Option String)
    (ps : List Client.ProgressPayload) (prev : List Client.CotEntry)
    (n last : Client.CotEntry) :
    List.Chain' (fun a b => Client.tripleOf a ≠ Client.tripleOf b)
      (Client.buildCot lb dm ps) ∧
    (prev.getLast? = some last → Client.tripleOf last = Client.tripleOf n →
      Client.pushCot prev n = prev) ∧
    (prev.getLast? = some last → Client.tripleOf last ≠ Client.tripleOf n →
      Client.pushCot prev n = prev ++ [n]) ∧
    (prev = [] → Client.pushCot prev n = [n]) := by
  refine ⟨foldl_pushCot_chain lb dm ps [] (by simp), ?_, ?_, ?_⟩
  · intro hl he
    simp [Client.pushCot, hl, he]
  · intro hl he
    simp [Client.pushCot, hl, he]
  · intro hnil
    subst hnil
    simp [Client.pushCot]

/-- C6 witness: the invariant on a concrete three-event run (a repeated
`searching` stage is collapsed), and the three updater behaviours — a
triple-equal entry (here differing only in `message`) is dropped, a
triple-different entry is appended, and the first entry is always appended. -/
theorem c6_consecutive_dedup_witness :
    List.Chain' (fun a b => Client.tripleOf a ≠ Client.tripleOf b)
      (Client.buildCot Client.label1 Client.noDomain
        [{ stage := "searching", message := none, details := none, article_url := none },
         { stage := "searching", message := none, details := none, article_url := none },
         { stage := "reading", message := none, details := none, article_url := none }]) ∧
    Client.pushCot
        [{ stage := Client.JsVal.str "Searching", message := none, details := none,
           article_url := none, domain := none }]
        { stage := Client.JsVal.str "Searching", message := some "m", details := none,
          article_url := none, domain := none } =
      [{ stage := Client.JsVal.str "Searching", message := none, details := none,
         article_url := none, domain := none }] ∧
    Client.pushCot
        [{ stage := Client.JsVal.str "Searching", message := none, details := none,
           article_url := none, domain := none }]
        { stage := Client.JsVal.str "Reading", message := none, details := none,
          article_url := none, domain := none } =
      [{ stage := Client.JsVal.str "Searching", message := none, details := none,
         article_url := none, domain := none },
       { stage := Client.JsVal.str "Reading", message := none, details := none,
         article_url := none, domain := none }] ∧
    Client.pushCot []
        { stage := Client.JsVal.str "Reading", message := none, details := none,
          article_url := none, domain := none } =
      [{ stage := Client.JsVal.str "Reading", message := none, details := none,
         article_url := none, domain := none }] :=
  ⟨(c6_consecutive_dedup Client.label1 Client.noDomain
      [{ stage := "searching", message := none, details := none, article_url := none },
       { stage := "searching", message := none, details := none, article_url := none },
       { stage := "reading", message := none, details := none, article_url := none }]
      []
      { stage := Client.JsVal.str "Reading", message := none, details := none,
        article_url := none, domain := none }
      { stage := Client.JsVal.str "Reading", message := none, details := none,
        article_url := none, domain := none }).1,
   (c6_consecutive_dedup Client.label1 Client.noDomain []
      [{ stage := Client.JsVal.str "Searching", message := none, details := none,
         article_url := none, domain := none }]
      { stage := Client.JsVal.str "Searching", message := some "m", details := none,
        article_url := none, domain := none }
      { stage := Client.JsVal.str "Searching", message := none, details := none,
        article_url := none, domain := none }).2.1 (by decide) (by decide),
   (c6_consecutive_dedup Client.label1 Client.noDomain []
      [{ stage := Client.JsVal.str "Searching", message := none, details := none,
         article_url := none, domain := none }]
      { stage := Client.JsVal.str "Reading", message := none, details := none,
        article_url := none, domain := none }
      { stage := Client.JsVal.str "Searching", message := none, details := none,
        article_url := none, domain := none }).2.2.1 (by decide) (by decide),
   (c6_consecutive_dedup Client.label1 Client.noDomain [] []
      { stage := Client.JsVal.str "Reading", message := none, details := none,
        article_url := none, domain := none }
      { stage := Client.JsVal.str "Reading", message := none, details := none,
        article_url := none, domain := none }).2.2.2 rfl⟩

/-- A closed EventSource delivers nothing: an event arriving at a closed state
leaves it unchanged. -/
theorem step_closed (dm : String → Option String) (st : Client.AppState)
    (ev : Client.SSEEvent) (h : st.es = none) : Client.step dm st ev = st := by
  simp [Client.step, h]

/-- C8 counterexample: the `stageCopy` lookup is a plain-object bracket access
and therefore walks the prototype chain: a progress event whose stage is
`"constructor"` (likewise `"toString"`, `"__proto__"`, ...) finds the inherited
truthy `Object.prototype` member, so `stageCopy[stage] || "Working"` yields
that inherited value and not the fallback label `"Working"` — refuting the
claim that every stage value outside the six known ones is mapped to
`"Working"`.  This holds in both revisions. -/
theorem c8_counterexample :
    "constructor" ∉ Client.sixStages ∧
    Client.label1 "constructor" = Client.JsVal.inherited "constructor" ∧
    Client.label1 "constructor" ≠ Client.JsVal.str "Working" ∧
    "toString" ∉ Client.sixStages ∧
    Client.label2 "toString" = Client.JsVal.inherited "toString" ∧
    Client.label2 "toString" ≠ Client.JsVal.str "Working" := by decide

/-- C8 amended: the progress handler is total — the embedding is a total
function and the handler's try/catch means a payload that fails to parse
(`none`) leaves the state unchanged rather than throwing; each of the six known
stage values maps to its own display label, pairwise distinct, in both
revisions; every other stage string (including the empty string that the
handler substitutes for a missing or non-string `stage` field) maps to the
fallback label `Working` — except the property names inherited from
`Object.prototype` (`"constructor"`, `"toString"`, `"__proto__"`, ...), for
which the bracket lookup finds the inherited truthy member, so the label is
that non-string value rather than `Working`. -/
theorem c8_stage_labels_total (s : String) (hs : s ∉ Client.sixStages)
    (hp : s ∉ Client.protoMembers)
    (lb : String → Client.JsVal) (dm : String → Option String)
    (st : Client.CotState) :
    Client.sixStages.map Client.label1 =
      [Client.JsVal.str "Starting", Client.JsVal.str "Loading",
       Client.JsVal.str "Searching", Client.JsVal.str "Reading",
       Client.JsVal.str "Thinking", Client.JsVal.str "Organizing"] ∧
    (Client.sixStages.map Client.label1).Pairwise (· ≠ ·) ∧
    Client.sixStages.map Client.label2 =
      [Client.JsVal.str "🔍 Preparing", Client.JsVal.str "⏳ Loading",
       Client.JsVal.str "🔎 Searching", Client.JsVal.str "📖 Reading",
       Client.JsVal.str "🧠 Analyzing", Client.JsVal.str "✍️ Summarizing"] ∧
    (Client.sixStages.map Client.label2).Pairwise (· ≠ ·) ∧
    Client.label1 s = Client.JsVal.str "Working" ∧
    Client.label2 s = Client.JsVal.str "Working" ∧
    (∀ name ∈ Client.protoMembers,
      Client.label1 name = Client.JsVal.inherited name ∧
      Client.label2 name = Client.JsVal.inherited name) ∧
    Client.handleProgressCot lb dm st none = st := by
  refine ⟨by decide, by decide, by decide, by decide, ?_, ?_, by decide, rfl⟩
  · simp only [Client.sixStages, List.mem_cons, List.mem_singleton, not_or] at hs
    obtain ⟨h1, h2, h3, h4, h5, h6⟩ := hs
    simp [Client.label1, Client.stageCopy1, Client.recordLookup,
      Client.stageCopyOwn1, h1, h2, h3, h4, h5, h6, hp]
  · simp only [Client.sixStages, List.mem_cons, List.mem_singleton, not_or] at hs
    obtain ⟨h1, h2, h3, h4, h5, h6⟩ := hs
    simp [Client.label2, Client.stageCopy2, Client.recordLookup,
      Client.stageCopyOwn2, h1, h2, h3, h4, h5, h6, hp]

/-- C8 witness: the amended statement at the unknown stage value
`"downloading"` (neither a known stage nor an inherited property name), an
arbitrary label map, the trivial domain parser and a concrete state. -/
theorem c8_stage_labels_total_witness :
    Client.sixStages.map Client.label1 =
      [Client.JsVal.str "Starting", Client.JsVal.str "Loading",
       Client.JsVal.str "Searching", Client.JsVal.str "Reading",
       Client.JsVal.str "Thinking", Client.JsVal.str "Organizing"] ∧
    (Client.sixStages.map Client.label1).Pairwise (· ≠ ·) ∧
    Client.sixStages.map Client.label2 =
      [Client.JsVal.str "🔍 Preparing", Client.JsVal.str "⏳ Loading",
       Client.JsVal.str "🔎 Searching", Client.JsVal.str "📖 Reading",
       Client.JsVal.str "🧠 Analyzing", Client.JsVal.str "✍️ Summarizing"] ∧
    (Client.sixStages.map Client.label2).Pairwise (· ≠ ·) ∧
    Client.label1 "downloading" = Client.JsVal.str "Working" ∧
    Client.label2 "downloading" = Client.JsVal.str "Working" ∧
    (∀ name ∈ Client.protoMembers,
      Client.label1 name = Client.JsVal.inherited name ∧
      Client.label2 name = Client.JsVal.inherited name) ∧
    Client.handleProgressCot Client.label1 Client.noDomain
      { cotMessages := [], cotCurrent := none, cotActive := none } none =
      { cotMessages := [], cotCurrent := none, cotActive := none } :=
  c8_stage_labels_total "downloading" (by decide) (by decide)
    Client.label1 Client.noDomain
    { cotMessages := [], cotCurrent := none, cotActive := none }

/-- C9: at most one research stream is in flight per client.  If `handleSend`
runs while the in-flight flag `isSendingRef` is set it returns the state
unchanged (no message appended, no connection touched); the one-open-connection
invariant is preserved both by `handleSend` and by event delivery; and when a
send does proceed, any existing EventSource is closed before the new one is
opened, so the new connection is the only open one. -/
theorem c9_single_stream (r : Bool) (st : Client.AppState) (nid : Nat)
    (dm : String → Option String) (ev : Client.SSEEvent) :
    (st.sendingRef = true → Client.handleSend r st nid = st) ∧
    (Client.connInv st = true → Client.connInv (Client.handleSend r st nid) = true) ∧
    (Client.connInv st = true → Client.connInv (Client.step dm st ev) = true) ∧
    (strTrim st.userInput ≠ "" → st.sendingRef = false → r = false →
      (Client.handleSend r st nid).es = some nid ∧
      (Client.connInv st = true → (Client.handleSend r st nid).openConns = [nid])) := by
  refine ⟨?_, ?_, ?_, ?_⟩
  · intro h
    by_cases ht : strTrim st.userInput = "" <;> simp [Client.handleSend, ht, h]
  · intro hinv
    by_cases ht : strTrim st.userInput = ""
    · simpa [Client.handleSend, ht] using hinv
    · cases hs : st.sendingRef with
      | true => simpa [Client.handleSend, ht, hs] using hinv
      | false =>
          cases hr : r with
          | true =>
              cases he : st.es with
              | none =>
                  have hoc : st.openConns = [] := by
                    simpa [Client.connInv, he] using hinv
                  simp [Client.handleSend, ht, hs, Client.connInv, he, hoc]
              | some i =>
                  have hoc : st.openConns = [i] := by
                    simpa [Client.connInv, he] using hinv
                  simp [Client.handleSend, ht, hs, Client.connInv, he, hoc]
          | false =>
              cases he : st.es with
              | none =>
                  have hoc : st.openConns = [] := by
                    simpa [Client.connInv, he] using hinv
                  simp [Client.handleSend, ht, hs, Client.closeES, Client.connInv, he, hoc]
              | some i =>
                  have hoc : st.openConns = [i] := by
                    simpa [Client.connInv, he] using hinv
                  simp [Client.handleSend, ht, hs, Client.closeES, Client.connInv, he, hoc]
  · intro hinv
    cases he : st.es with
    | none => simpa [step_closed dm st ev he] using hinv
    | some i =>
        have hoc : st.openConns = [i] := by
          simpa [Client.connInv, he] using hinv
        cases ev with
        | progress d => simp [Client.step, he, Client.connInv, hoc]
        | complete d =>
            cases d <;>
              simp [Client.step, he, Client.handleComplete, Client.closeES,
                Client.terminalReset, Client.connInv, hoc]
        | errorEv d =>
            cases d <;>
              simp [Client.step, he, Client.handleErrorEvent, Client.closeES,
                Client.terminalReset, Client.connInv, hoc]
  · intro ht hs hr
    subst hr
    constructor
    · cases he : st.es <;> simp [Client.handleSend, ht, hs, Client.closeES, he]
    · intro hinv
      cases he : st.es with
      | none =>
          have hoc : st.openConns = [] := by
            simpa [Client.connInv, he] using hinv
          simp [Client.handleSend, ht, hs, Client.closeES, he, hoc]
      | some i =>
          have hoc : st.openConns = [i] := by
            simpa [Client.connInv, he] using hinv
          simp [Client.handleSend, ht, hs, Client.closeES, he, hoc]

/-- C9 witness: the in-flight early return on a concrete busy state, invariant
preservation and close-before-open on a concrete idle state with connection 5. -/
theorem c9_single_stream_witness :
    Client.handleSend false Client.demoOpenState 5 = Client.demoOpenState ∧
    Client.connInv (Client.handleSend false Client.idleState 5) = true ∧
    Client.connInv
      (Client.step Client.noDomain Client.demoOpenState
        (Client.SSEEvent.progress none)) = true ∧
    (Client.handleSend false Client.idleState 5).es = some 5 ∧
    (Client.handleSend false Client.idleState 5).openConns = [5] :=
  ⟨(c9_single_stream false Client.demoOpenState 5 Client.noDomain
      (Client.SSEEvent.progress none)).1 rfl,
   (c9_single_stream false Client.idleState 5 Client.noDomain
      (Client.SSEEvent.progress none)).2.1 (by decide),
   (c9_single_stream false Client.demoOpenState 5 Client.noDomain
      (Client.SSEEvent.progress none)).2.2.1 (by decide),
   ((c9_single_stream false Client.idleState 5 Client.noDomain
      (Client.SSEEvent.progress none)).2.2.2 (by decide) rfl rfl).1,
   ((c9_single_stream false Client.idleState 5 Client.noDomain
      (Client.SSEEvent.progress none)).2.2.2 (by decide) rfl rfl).2 (by decide)⟩

/-- Transitivity of the boolean prefix test. -/
theorem leadsWith_trans :
    ∀ (p q l : List Char), Client.leadsWith p q = true →
      Client.leadsWith q l = true → Client.leadsWith p l = true
  | [], _, _ => by simp [Client.leadsWith]
  | _ :: _, [], _ => by simp [Client.leadsWith]
  | _ :: _, _ :: _, [] => by simp [Client.leadsWith]
  | p :: ps, q :: qs, c :: cs => by
      intro h1 h2
      simp only [Client.leadsWith, Bool.and_eq_true, beq_iff_eq] at h1 h2 ⊢
      exact ⟨h1.1.trans h2.1, leadsWith_trans ps qs cs h1.2 h2.2⟩

/-- Every anchor emitted by the link-pass scanner carries an href produced by
the `check` policy. -/
theorem linkScan_anchor_sound (check : String → Option String) (Q : String → Prop)
    (hcheck : ∀ u h, check u = some h → Q h) :
    ∀ (fuel : Nat) (cs : List Char) (h l : String),
      Client.Seg.anchor h l ∈ Client.linkScan check fuel cs → Q h := by
  intro fuel
  induction fuel with
  | zero =>
      intro cs h l hm
      simp [Client.linkScan] at hm
  | succ n ih =>
      intro cs h l hm
      cases cs with
      | nil => simp [Client.linkScan] at hm
      | cons c rest =>
          by_cases hc : c = '['
          · simp only [Client.linkScan, hc, if_true] at hm
            split at hm
            · split at hm
              · rcases List.mem_cons.1 hm with heq | hm2
                · injection heq with hh hl
                  subst hh
                  exact hcheck _ _ (by assumption)
                · exact ih _ h l hm2
              · rcases List.mem_cons.1 hm with heq | hm2
                · simp at heq
                · exact ih rest h l hm2
            · rcases List.mem_cons.1 hm with heq | hm2
              · simp at heq
              · exact ih rest h l hm2
          · simp only [Client.linkScan, hc, if_false] at hm
            rcases List.mem_cons.1 hm with heq | hm2
            · simp at heq
            · exact ih rest h l hm2

/-- C10 counterexample: the first revision's link pass turns a markdown link
with a non-http target into an anchor whose href is the literal `"#"`, which
does not begin with `"http"` — refuting the claim that every emitted anchor's
href begins with `"http"`. -/
theorem c10_counterexample :
    Client.linkSegs1 "[x](foo)" = [Client.Seg.anchor "#" "x"] ∧
    Client.linkify1 "[x](foo)" = "<a href=\"#\" rel=\"noopener\">x</a>" ∧
    Client.startsWithS "#" "http" = false := by decide

/-- C10 amended: every anchor emitted by the first revision's link pass has an
href that either begins with `"http"` or is the literal `"#"` (non-http targets
are replaced by `"#"`); every anchor emitted by the second revision's link pass
has an href that begins with `"http"` (non-http targets are not linkified at
all).  In both revisions a markdown link can therefore never inject a
`javascript:` or other non-http-scheme URL. -/
theorem c10_anchor_href_policy (s : String) :
    (∀ h l, Client.Seg.anchor h l ∈ Client.linkSegs1 s →
      Client.startsWithS h "http" = true ∨ h = "#") ∧
    (∀ h l, Client.Seg.anchor h l ∈ Client.linkSegs2 s →
      Client.startsWithS h "http" = true) := by
  constructor
  · intro h l hm
    refine linkScan_anchor_sound Client.check1
      (fun x => Client.startsWithS x "http" = true ∨ x = "#") ?_ _ _ h l hm
    intro u hr hck
    simp only [Client.check1, Option.some.injEq] at hck
    subst hck
    by_cases hu : Client.startsWithS u "http" = true
    · left
      simp [Client.safeUrl1, hu]
    · right
      simp [Client.safeUrl1, hu]
  · intro h l hm
    refine linkScan_anchor_sound Client.check2
      (fun x => Client.startsWithS x "http" = true) ?_ _ _ h l hm
    intro u hr hck
    simp only [Client.check2] at hck
    by_cases hok : Client.urlOk2 u = true
    · rw [if_pos hok] at hck
      cases hck
      have hp := hok
      simp only [Client.urlOk2, Bool.and_eq_true, Bool.or_eq_true] at hp
      rcases hp.1 with ⟨hpre, _⟩ | ⟨hpre, _⟩
      · exact leadsWith_trans (String.toList "http") (String.toList "http://")
          (String.toList u) (by decide) hpre
      · exact leadsWith_trans (String.toList "http") (String.toList "https://")
          (String.toList u) (by decide) hpre
    · rw [if_neg hok] at hck
      cases hck

/-- C10 witness: the amended statement applied to two concrete inputs, one per
revision, each emitting one anchor. -/
theorem c10_anchor_href_policy_witness :
    (Client.startsWithS "http://a" "http" = true ∨ "http://a" = "#") ∧
    Client.startsWithS "http://ab" "http" = true :=
  ⟨(c10_anchor_href_policy "[x](http://a)").1 "http://a" "x" (by decide),
   (c10_anchor_href_policy "[y](http://ab)").2 "http://ab" "y" (by decide)⟩
